import Mathlib

/-!
Verification development for the PolicyEngine-UK microsimulation façade
(`openfisca_uk/microdata/simulation.py`) and two rule-content variables
(`pension_credit.py`, `bi_phaseout.py`).

The embedded fragment is the code of this repository: the `Microsimulation`
façade methods `calc`, `map_to`, `load_dataset` and `deriv`, and the variable
formulas `would_claim_PC.formula` and `bi_household_phaseout.formula`.
The underlying `openfisca_core` engine (the `calculate` / `calculate_add` /
`calculate_divide` resolvers and the entity `Population` operators) is an
external dependency of this repository; the façade's calls into it are
therefore abstracted as parameters (the three attempt outcomes) or modelled
from the documented entity-operator contract (group reduction, projection,
member counts).  Machine floats are modelled as exact rationals.
-/

/-- Value types of a variable, as tested by `calc`
(`value_type == float`, `== bool`, `== Enum`). -/
inductive VType where
  | float
  | boolT
  | enumT
deriving DecidableEq, Repr

/-- A computed cell value after `calc`'s post-processing: numeric, boolean
(from the `arr >= 52` reinterpretation) or string (from `decode_to_str`). -/
inductive Val where
  | f (x : ℚ)
  | b (x : Bool)
  | s (x : String)
deriving DecidableEq, Repr

/-- Round-half-even (numpy's rounding mode) of a rational to an integer. -/
def rhe (x : ℚ) : ℤ :=
  if x - ⌊x⌋ < 1/2 then ⌊x⌋
  else if 1/2 < x - ⌊x⌋ then ⌊x⌋ + 1
  else if ⌊x⌋ % 2 = 0 then ⌊x⌋ else ⌊x⌋ + 1

/-- `arr.round(2)` on one cell: round to 2 decimal places. -/
def round2 (x : ℚ) : ℚ := (rhe (x * 100) : ℚ) / 100

/-- The post-`try` section of `Microsimulation.calc`:
`if var_metadata.value_type == float: arr = arr.round(2)` then
`if var_metadata.value_type == Enum: arr = arr.decode_to_str()`.
`decode` abstracts the external `decode_to_str`. -/
def calcPost (decode : ℚ → String) (vt : VType) (arr : List Val) : List Val :=
  let arr1 :=
    if vt = VType.float then
      arr.map (fun v => match v with | Val.f x => Val.f (round2 x) | v => v)
    else arr
  if vt = VType.enumT then
    arr1.map (fun v => match v with | Val.f x => Val.s (decode x) | v => v)
  else arr1

/-- The `calculate_add` branch of `calc`:
`if var_metadata.value_type == bool: arr = arr >= 52`. -/
def addReinterp (vt : VType) (arr : List ℚ) : List Val :=
  if vt = VType.boolT then arr.map (fun x => Val.b (decide ((52:ℚ) ≤ x)))
  else arr.map Val.f

/-- The `try/except` resolution chain of `Microsimulation.calc`:
`calculate` first; on exception `e`, `calculate_add` (with the boolean
reinterpretation); on exception, `calculate_divide`; when that also fails,
`raise e`.  The three attempt outcomes are the façade's view of the external
core engine and are passed in as `Except` values. -/
def calcResolve (decode : ℚ → String) (vt : VType)
    (direct addA divide : Except String (List ℚ)) : Except String (List Val) :=
  match direct with
  | Except.ok arr => Except.ok (calcPost decode vt (arr.map Val.f))
  | Except.error e =>
    match addA with
    | Except.ok arr => Except.ok (calcPost decode vt (addReinterp vt arr))
    | Except.error _ =>
      match divide with
      | Except.ok arr => Except.ok (calcPost decode vt (arr.map Val.f))
      | Except.error _ => Except.error e

/-- The sum-over-subperiods transform (`calculate_add`) for one population
unit of a boolean variable: the subperiod indicator arrays are summed, so the
unit's cell holds the count of true subperiods. -/
def sumIndicator (ms : List Bool) : ℚ := ((ms.countP id : ℕ) : ℚ)

/-! ## The entity model and `Microsimulation.map_to`

Entities are `person`, `benunit`, `household`.  A `World` holds the two
membership maps (for each person, the index of its benefit unit and of its
household) and the group instance counts, mirroring the data
`load_dataset` passes to `join_with_persons`.  The group-reduction and
projection operators model the external `openfisca_core` `Population`
contract (one output per group instance for reductions, one output per
person for projection, `nb_persons` the member count per group). -/

/-- Entity kinds of the UK system. -/
inductive Ent where
  | person
  | benunit
  | household
deriving DecidableEq, Repr

/-- Membership maps: for person `p`, `personBenunit[p]` / `personHousehold[p]`
is the index of the group instance `p` belongs to. -/
structure World where
  personBenunit : List Nat
  personHousehold : List Nat
  nBenunit : Nat
  nHousehold : Nat

/-- The values of the members of group instance `g`. -/
def members (groupOf : List Nat) (g : Nat) (arr : List ℚ) : List ℚ :=
  ((groupOf.zip arr).filter (fun pr => pr.1 == g)).map (fun pr => pr.2)

/-- `Population.sum`: one output per group instance. -/
def groupSum (groupOf : List Nat) (n : Nat) (arr : List ℚ) : List ℚ :=
  (List.range n).map (fun g => (members groupOf g arr).sum)

/-- `Population.any`: 1 for a group with a nonzero member, else 0. -/
def groupAny (groupOf : List Nat) (n : Nat) (arr : List ℚ) : List ℚ :=
  (List.range n).map (fun g => if (members groupOf g arr).any (fun x => x != 0) then 1 else 0)

/-- `Population.all`: 1 for a group all of whose members are nonzero. -/
def groupAll (groupOf : List Nat) (n : Nat) (arr : List ℚ) : List ℚ :=
  (List.range n).map (fun g => if (members groupOf g arr).all (fun x => x != 0) then 1 else 0)

/-- `Population.min`: least member value per group. -/
def groupMin (groupOf : List Nat) (n : Nat) (arr : List ℚ) : List ℚ :=
  (List.range n).map (fun g => ((members groupOf g arr).min?).getD 0)

/-- `Population.max`: greatest member value per group. -/
def groupMax (groupOf : List Nat) (n : Nat) (arr : List ℚ) : List ℚ :=
  (List.range n).map (fun g => ((members groupOf g arr).max?).getD 0)

/-- `Population.value_from_first_person`: first member value per group. -/
def groupFirst (groupOf : List Nat) (n : Nat) (arr : List ℚ) : List ℚ :=
  (List.range n).map (fun g => (members groupOf g arr).headD 0)

/-- `Population.project`: broadcast a group-level array down to persons. -/
def project (groupOf : List Nat) (groupArr : List ℚ) : List ℚ :=
  groupOf.map (fun g => groupArr.getD g 0)

/-- `Population.nb_persons`: member count per group instance. -/
def nb_persons (groupOf : List Nat) (n : Nat) : List ℚ :=
  (List.range n).map (fun g => ((groupOf.filter (fun x => x == g)).length : ℚ))

/-- Membership map of a group entity (unused for `person`). -/
def World.groupOf (w : World) : Ent → List Nat
  | Ent.person => []
  | Ent.benunit => w.personBenunit
  | Ent.household => w.personHousehold

/-- Instance count of a group entity (unused for `person`). -/
def World.nGroups (w : World) : Ent → Nat
  | Ent.person => w.personBenunit.length
  | Ent.benunit => w.nBenunit
  | Ent.household => w.nHousehold

/-- `target_pop.__getattribute__(how or "sum")(arr)`: dispatch of the
person-to-group reduction by operator name (the guard in `map_to` ensures
only the six valid names reach this point). -/
def applyGroupOp (h : String) (groupOf : List Nat) (n : Nat) (arr : List ℚ) : List ℚ :=
  if h == "sum" then groupSum groupOf n arr
  else if h == "any" then groupAny groupOf n arr
  else if h == "min" then groupMin groupOf n arr
  else if h == "max" then groupMax groupOf n arr
  else if h == "all" then groupAll groupOf n arr
  else groupFirst groupOf n arr

/-- The operator names `map_to` accepts for a person-to-group transform. -/
def validOps : List String :=
  ["sum", "any", "min", "max", "all", "value_from_first_person"]

/-- Outcome of `map_to`: a value, a raised `ValueError`, or Python's
implicit `None` (control falling off the end of the function). -/
inductive MapResult where
  | ok (arr : List ℚ)
  | valueError (msg : String)
  | none
deriving DecidableEq, Repr

/-- `Microsimulation.map_to`, fuelled for the self-call in its final
branch (the recursion depth is at most 2, so `map_to` runs it at fuel 2).
Branches in source order: person→group (with the `how` guard), group→person
(`project`, or `project(arr / nb_persons)` for `"mean"`, implicitly `None`
otherwise), identical entities (`arr` unchanged), and otherwise the generic
two-hop `map_to(map_to(arr, entity, "person", how="mean"), "person",
target_entity, how="sum")`. -/
def mapToF (w : World) : Nat → List ℚ → Ent → Ent → Option String → MapResult
  | 0, _, _, _, _ => MapResult.none
  | Nat.succ fuel, arr, e, t, how =>
    if e == Ent.person && (t == Ent.benunit || t == Ent.household) then
      match how with
      | some h =>
        if validOps.contains h then
          MapResult.ok (applyGroupOp h (w.groupOf t) (w.nGroups t) arr)
        else MapResult.valueError "Not a valid function."
      | none => MapResult.ok (applyGroupOp "sum" (w.groupOf t) (w.nGroups t) arr)
    else if (e == Ent.benunit || e == Ent.household) && t == Ent.person then
      match how with
      | none => MapResult.ok (project (w.groupOf e) arr)
      | some h =>
        if h == "mean" then
          MapResult.ok (project (w.groupOf e)
            (List.zipWith (fun a b => a / b) arr (nb_persons (w.groupOf e) (w.nGroups e))))
        else MapResult.none
    else if e == t then MapResult.ok arr
    else
      match mapToF w fuel arr e Ent.person (some "mean") with
      | MapResult.ok a => mapToF w fuel a Ent.person t (some "sum")
      | r => r

/-- `Microsimulation.map_to` at its real recursion depth. -/
def map_to (w : World) (arr : List ℚ) (e t : Ent) (how : Option String) : MapResult :=
  mapToF w 2 arr e t how

/-! ## `Microsimulation.load_dataset`: input loading and its warning

The input-loading loop of `load_dataset` flattened over the supplied
(variable, period) pairs.  `loadable` stands for whether the external
`model.set_input(variable, period, ...)` call succeeds for that pair. -/

/-- One supplied (variable, period) input and whether `set_input` accepts it. -/
structure LoadEntry where
  var : String
  period : String
  loadable : Bool

/-- The `skipped` list built by the loop: `skipped += [variable]` once per
failing (variable, period) pair, in iteration order. -/
def skipped_of (d : List LoadEntry) : List String :=
  (d.filter (fun en => !en.loadable)).map (fun en => en.var)

/-- The (variable, period) pairs that were actually set on the simulation:
loading is non-fatal, so all loadable pairs are set and the rest skipped. -/
def inputs_set (d : List LoadEntry) : List (String × String) :=
  (d.filter (fun en => en.loadable)).map (fun en => (en.var, en.period))

/-- The warning emitted after the loop:
`if skipped: warnings.warn(f"Incomplete initialisation: skipped {len(skipped)} variables:")`.
`none` means no warning. -/
def load_warning (d : List LoadEntry) : Option String :=
  let skipped := skipped_of d
  if skipped.isEmpty then none
  else some ("Incomplete initialisation: skipped "
      ++ toString skipped.length ++ " variables:")

/-! ## `Microsimulation.deriv`, same-entity branch

`__init__` binds exactly the attributes below (`load_dataset`, called from
it, binds `system`, `relations` and `simulation`); it accepts keyword
arguments `year` and `dataset` besides `*reforms`.  The same-entity branch
of `deriv` builds the perturbed sibling with
`Microsimulation(self.reforms[1:] + (bonus_ref,), mode=self.mode,
year=self.year, input_year=self.input_year)`: evaluating the arguments
looks up `self.mode` and `self.input_year`, and the call itself passes the
keywords `mode` and `input_year`.  The model runs those three lookups in
Python evaluation order and builds the sibling only if all succeed. -/

/-- The attributes `Microsimulation.__init__` binds on `self`, in order. -/
def microsim_init_attrs : List String :=
  ["dataset", "year", "reforms", "system", "relations", "simulation",
   "entity_weights", "bonus_sims"]

/-- The keyword parameters `Microsimulation.__init__` accepts besides the
positional `*reforms`. -/
def microsim_init_kwargs : List String := ["year", "dataset"]

/-- A sibling-simulation cache key: `(wrt, delta, percent, "same-entity")`. -/
def DerivConfig := String × ℚ × Bool × String
deriving DecidableEq

/-- The state of a `Microsimulation` as `deriv` sees it: its bound
attributes, the `bonus_sims` cache, its own `calc` results and the `calc`
results of any cached sibling (both as plain numeric arrays). -/
structure MicrosimState where
  attrs : List String
  bonus_sims : List DerivConfig
  calcOf : String → List ℚ
  bonusCalcOf : DerivConfig → String → List ℚ

/-- Construction of the perturbed sibling
(`Microsimulation(..., mode=self.mode, year=self.year, input_year=self.input_year)`):
attribute lookups in argument order, then the keyword check of the call. -/
def build_bonus_sim (st : MicrosimState) : Except String Unit :=
  if "mode" ∈ st.attrs then
    if "input_year" ∈ st.attrs then
      if "mode" ∈ microsim_init_kwargs ∧ "input_year" ∈ microsim_init_kwargs then
        Except.ok ()
      else Except.error "TypeError: __init__ got an unexpected keyword argument"
    else Except.error "AttributeError: Microsimulation object has no attribute input_year"
  else Except.error "AttributeError: Microsimulation object has no attribute mode"

/-- The same-entity branch of `Microsimulation.deriv`: on a cache hit the
gradient `(target_perturbed - target_base) / (wrt_perturbed - wrt_base)` is
computed elementwise from the cached sibling; on a miss the sibling is
constructed first. -/
def deriv_same_entity (st : MicrosimState) (target wrt : String)
    (delta : ℚ) (percent : Bool) : Except String (List ℚ) :=
  let config : DerivConfig := (wrt, delta, percent, "same-entity")
  let gradient : (String → List ℚ) → List ℚ := fun bs =>
    let bonus_increase := List.zipWith (fun a b => a - b) (bs wrt) (st.calcOf wrt)
    let target_increase := List.zipWith (fun a b => a - b) (bs target) (st.calcOf target)
    List.zipWith (fun a b => a / b) target_increase bonus_increase
  if config ∈ st.bonus_sims then Except.ok (gradient (st.bonusCalcOf config))
  else
    match build_bonus_sim st with
    | Except.error e => Except.error e
    | Except.ok _ => Except.ok (gradient (st.bonusCalcOf config))

/-- A freshly constructed `Microsimulation`: the `__init__` attributes and
an empty `bonus_sims` cache. -/
def fresh_microsim (calcOf : String → List ℚ) : MicrosimState :=
  ⟨microsim_init_attrs, [], calcOf, fun _ _ => []⟩

/-- A base population for the linear scenario `output = 2 * wrt + 10`
with three persons at `wrt` values 0, 50, 100. -/
def linear_base : String → List ℚ :=
  fun v => if v = "wrt" then [0, 50, 100]
    else if v = "output" then [10, 110, 210] else []

/-! ## `would_claim_PC.formula` (pension_credit.py)

Per benefit unit: `reported_pc = aggr(benunit, period,
["pension_credit_reported"]) > 0`, `imputed_takeup = random(benunit) <
takeup_rate`, and the returned disjunction has the literal `True` first.
The aggregated reported amounts, the random draws and the
`claims_all_entitled_benefits` array are benunit-level inputs here. -/

/-- The body of `would_claim_PC.formula`. -/
def would_claim_PC_formula (reported_amounts : List ℚ) (takeup_rate : ℚ)
    (randoms : List ℚ) (claims_all : List Bool) : List Bool :=
  let reported_pc := reported_amounts.map (fun x => decide (0 < x))
  let imputed_takeup := randoms.map (fun r => decide (r < takeup_rate))
  List.zipWith (fun c pr => ((true || c) || pr.1) || pr.2)
    claims_all (imputed_takeup.zip reported_pc)

/-! ## `bi_household_phaseout.formula` (bi_phaseout.py)

Person-level formula; `person.household.sum(x)` projects each person's
household total back to the person, modelled by `hh_sum_at`.  Parameters:
the individual and household phase-out thresholds and rates. -/

/-- `min_(max_bi, uncapped_deduction)` of `bi_individual_phaseout.formula`. -/
def bi_individual_phaseout (thI rI : ℚ) (income maxbi : ℚ) : ℚ :=
  min maxbi (rI * max (income - thI) 0)

/-- `household.sum(vals)` seen from a person in household `g`. -/
def hh_sum_at (personHH : List Nat) (vals : List ℚ) (g : Nat) : ℚ :=
  (((personHH.zip vals).filter (fun pr => pr.1 == g)).map (fun pr => pr.2)).sum

/-- `remaining_bi`: each person's basic income left after the
individual-level phase-out. -/
def remaining_bi (thI rI : ℚ) (incomes maxbis : List ℚ) : List ℚ :=
  List.zipWith (fun inc mb => mb - bi_individual_phaseout thI rI inc mb) incomes maxbis

/-- `household_bi = household.sum(remaining_bi)` seen from person `p`. -/
def household_bi_at (thI rI : ℚ) (personHH : List Nat)
    (incomes maxbis : List ℚ) (p : Nat) : ℚ :=
  hh_sum_at personHH (remaining_bi thI rI incomes maxbis) (personHH.getD p 0)

/-- `capped_deduction = min_(household_bi, uncapped_deduction)` with
`uncapped_deduction = rate * max_(household_income - threshold, 0)`,
seen from person `p`. -/
def capped_deduction_at (thH rH thI rI : ℚ) (personHH : List Nat)
    (incomes maxbis : List ℚ) (p : Nat) : ℚ :=
  min (household_bi_at thI rI personHH incomes maxbis p)
    (rH * max (hh_sum_at personHH incomes (personHH.getD p 0) - thH) 0)

/-- `percent_reduction` of `bi_household_phaseout.formula` for person `p`:
`where(household_bi > 0, capped_deduction / household_bi, 0)`. -/
def percent_reduction_at (thH rH thI rI : ℚ) (personHH : List Nat)
    (incomes maxbis : List ℚ) (p : Nat) : ℚ :=
  if household_bi_at thI rI personHH incomes maxbis p > 0 then
    capped_deduction_at thH rH thI rI personHH incomes maxbis p
      / household_bi_at thI rI personHH incomes maxbis p
  else 0

/-- `bi_household_phaseout.formula`: `percent_reduction * remaining_bi`,
one value per person. -/
def bi_household_phaseout_formula (thH rH thI rI : ℚ) (personHH : List Nat)
    (incomes maxbis : List ℚ) : List ℚ :=
  (List.range personHH.length).map (fun p =>
    percent_reduction_at thH rH thI rI personHH incomes maxbis p
      * (remaining_bi thI rI incomes maxbis).getD p 0)

/-! ## Helper lemmas -/

/-- Round-half-even lands within half a unit of its argument. -/
theorem abs_rhe_sub_le (y : ℚ) : |(rhe y : ℚ) - y| ≤ 1/2 := by
  have h0 : (⌊y⌋ : ℚ) ≤ y := Int.floor_le y
  have h1 : y < (⌊y⌋ : ℚ) + 1 := Int.lt_floor_add_one y
  rw [abs_le]
  unfold rhe
  split_ifs <;> constructor <;> push_cast <;> linarith

/-- `round2` moves a value by at most half of the last kept decimal place. -/
theorem abs_round2_sub_le (x : ℚ) : |round2 x - x| ≤ 1/200 := by
  have h := abs_rhe_sub_le (x * 100)
  have heq : round2 x - x = ((rhe (x * 100) : ℚ) - x * 100) / 100 := by
    unfold round2; ring
  rw [heq, abs_div]
  have h100 : |(100:ℚ)| = 100 := by norm_num
  rw [h100]
  linarith

/-- Every output of the `would_claim_PC` disjunction is `true`. -/
theorem zipWith_true_or_all (l1 : List Bool) (l2 : List (Bool × Bool)) :
    (List.zipWith (fun c pr => ((true || c) || pr.1) || pr.2) l1 l2).all
      (fun b => b) = true := by
  induction l1 generalizing l2 with
  | nil => rfl
  | cons a tl ih =>
    cases l2 with
    | nil => rfl
    | cons b tl2 =>
      simp only [List.zipWith, List.all_cons, Bool.true_or, Bool.true_and]
      exact ih tl2

/-- Pointwise bound for the household phase-out reduction factor. -/
theorem percent_reduction_at_le_one (thH rH thI rI : ℚ) (personHH : List Nat)
    (incomes maxbis : List ℚ) (p : Nat) :
    percent_reduction_at thH rH thI rI personHH incomes maxbis p ≤ 1 := by
  unfold percent_reduction_at
  by_cases hpos : household_bi_at thI rI personHH incomes maxbis p > 0
  · rw [if_pos hpos]
    exact (div_le_one hpos).mpr (min_le_left _ _)
  · rw [if_neg hpos]
    norm_num

/-! ## Claims -/

/-- C1 counterexample: with all three attempts failing on distinct
exceptions, `calc` re-raises the exception of the first (direct) attempt,
not that of the final (divide) attempt as the claim states. -/
theorem calc_all_fail_surfaces_direct_error_cx :
    calcResolve (fun _ => "") VType.float (Except.error "direct failed")
        (Except.error "add failed") (Except.error "divide failed")
      = Except.error "direct failed"
    ∧ calcResolve (fun _ => "") VType.float (Except.error "direct failed")
        (Except.error "add failed") (Except.error "divide failed")
      ≠ Except.error "divide failed" := by
  refine ⟨rfl, ?_⟩
  simp [calcResolve]

/-- C1 (amended): `calc` attempts exactly one resolution in priority order
— direct `calculate` first, then `calculate_add`, then `calculate_divide`
— and when all three attempts fail, the exception surfaced to the caller is
the failure of the FIRST (direct) attempt. -/
theorem calc_resolution_priority (decode : ℚ → String) (vt : VType)
    (arr : List ℚ) (a d : Except String (List ℚ)) (e1 e2 e3 : String) :
    calcResolve decode vt (Except.ok arr) a d
        = Except.ok (calcPost decode vt (arr.map Val.f))
    ∧ calcResolve decode vt (Except.error e1) (Except.ok arr) d
        = Except.ok (calcPost decode vt (addReinterp vt arr))
    ∧ calcResolve decode vt (Except.error e1) (Except.error e2) (Except.ok arr)
        = Except.ok (calcPost decode vt (arr.map Val.f))
    ∧ calcResolve decode vt (Except.error e1) (Except.error e2) (Except.error e3)
        = Except.error e1 :=
  ⟨rfl, rfl, rfl, rfl⟩

/-- C2 counterexample: a monthly boolean indicator true in ALL 12 months
(summed indicator count 12, equal to the number of subperiods) still
resolves annually to `false`, because the code compares the sum with 52,
not with the number of subperiods. -/
theorem bool_sum_transform_full_year_false_cx :
    (List.replicate 12 true).length = 12
    ∧ sumIndicator (List.replicate 12 true) = 12
    ∧ calcResolve (fun _ => "") VType.boolT (Except.error "no formula")
        (Except.ok [sumIndicator (List.replicate 12 true)])
        (Except.error "divide failed")
      = Except.ok [Val.b false] := by
  have hc : List.countP id (List.replicate 12 true) = 12 := by decide
  refine ⟨rfl, ?_, ?_⟩
  · simp [sumIndicator, hc]
  · simp only [calcResolve, calcPost, addReinterp, sumIndicator]
    norm_num
    decide

/-- C2 (amended): a boolean variable computed annually via the
sum-over-subperiods transform is true exactly when the summed subperiod
indicator count reaches 52 (the weeks in a year), regardless of the
variable's actual number of subperiods; in particular a monthly indicator
true in 11 of 12 months resolves annually to `false`. -/
theorem bool_sum_transform_threshold_52 (decode : ℚ → String)
    (e1 e2 : String) (ms : List Bool) :
    calcResolve decode VType.boolT (Except.error e1)
        (Except.ok [sumIndicator ms]) (Except.error e2)
      = Except.ok [Val.b (decide ((52:ℚ) ≤ sumIndicator ms))]
    ∧ calcResolve decode VType.boolT (Except.error e1)
        (Except.ok [sumIndicator (List.replicate 11 true ++ [false])])
        (Except.error e2)
      = Except.ok [Val.b false] := by
  have hc : List.countP id (List.replicate 11 true ++ [false]) = 11 := by decide
  refine ⟨rfl, ?_⟩
  simp only [calcResolve, calcPost, addReinterp, sumIndicator, hc]
  norm_num

/-- C5 counterexample: a float-typed variable whose computed value is
0.123 is returned by `calc` as 0.12 — the value IS rounded (to 2 decimal
places), contradicting the claim that no truncation or rounding happens. -/
theorem calc_float_rounding_cx :
    calcResolve (fun _ => "") VType.float (Except.ok [(123:ℚ)/1000])
        (Except.error "add failed") (Except.error "divide failed")
      = Except.ok [Val.f ((12:ℚ)/100)]
    ∧ ((12:ℚ)/100) ≠ (123:ℚ)/1000 := by
  have h : round2 ((123:ℚ)/1000) = 12/100 := by norm_num [round2, rhe]
  exact ⟨by simp [calcResolve, calcPost, h], by norm_num⟩

/-- C5 (amended): `calc` rounds every float-typed result to 2 decimal
places (half-to-even) before returning it; the returned value is an integer
multiple of 1/100 and differs from the computed value by at most 1/200. -/
theorem calc_float_rounds_to_2dp (decode : ℚ → String) (x : ℚ)
    (a d : Except String (List ℚ)) :
    calcResolve decode VType.float (Except.ok [x]) a d
      = Except.ok [Val.f (round2 x)]
    ∧ (∃ n : ℤ, round2 x = (n : ℚ) / 100)
    ∧ |round2 x - x| ≤ 1/200 :=
  ⟨rfl, ⟨rhe (x * 100), rfl⟩, abs_round2_sub_le x⟩

/-- C4 counterexample: in the group-to-person direction an unsupported
`how` (here `"sum"`) raises nothing — `map_to` falls off the end and
returns `None` — while the same operator in the person-to-group direction
is accepted; the validation-with-error applies only person-to-group. -/
theorem map_to_downward_invalid_how_cx :
    map_to ⟨[0, 0], [0, 0], 1, 1⟩ [3] Ent.household Ent.person (some "sum")
      = MapResult.none
    ∧ map_to ⟨[0, 0], [0, 0], 1, 1⟩ [1, 2] Ent.person Ent.household (some "bogus")
      = MapResult.valueError "Not a valid function." :=
  ⟨rfl, rfl⟩

/-- C4 (amended): `map_to` validates `how` only for person-to-group
transforms, raising `ValueError("Not a valid function.")` for names outside
the six allowed operators; for group-to-person transforms `how` is not
validated — any value other than `"mean"` (or omission) silently produces
no result (`None`). -/
theorem map_to_how_validation_asymmetric (w : World) (arr : List ℚ) (h : String) :
    (h ∉ validOps →
      map_to w arr Ent.person Ent.benunit (some h)
          = MapResult.valueError "Not a valid function."
      ∧ map_to w arr Ent.person Ent.household (some h)
          = MapResult.valueError "Not a valid function.")
    ∧ (h ≠ "mean" →
      map_to w arr Ent.benunit Ent.person (some h) = MapResult.none
      ∧ map_to w arr Ent.household Ent.person (some h) = MapResult.none) := by
  constructor
  · intro hnot
    constructor <;> simp [map_to, mapToF, hnot]
  · intro hne
    constructor <;> simp [map_to, mapToF, hne]

/-- Witness for C4 (amended) at `how = "median"`. -/
theorem map_to_how_validation_asymmetric_witness :
    map_to ⟨[0, 0], [0, 0], 1, 1⟩ [1, 2] Ent.person Ent.benunit (some "median")
      = MapResult.valueError "Not a valid function."
    ∧ map_to ⟨[0, 0], [0, 0], 1, 1⟩ [3] Ent.benunit Ent.person (some "median")
      = MapResult.none :=
  ⟨((map_to_how_validation_asymmetric ⟨[0, 0], [0, 0], 1, 1⟩ [1, 2] "median").1
      (by decide)).1,
   ((map_to_how_validation_asymmetric ⟨[0, 0], [0, 0], 1, 1⟩ [3] "median").2
      (by decide)).1⟩

/-- C6 (confirmed): for the entity pairs outside person-to-group,
group-to-person and identity (benunit↔household), `map_to` is the generic
person-mediated two-hop transform — the composition of the group-to-person
`"mean"` step (which divides each group value by the group's member count
before projecting) with the person-to-group `"sum"` step — whatever `how`
was passed. -/
theorem map_to_generic_two_hop (w : World) (arr : List ℚ) (how : Option String) :
    (map_to w arr Ent.benunit Ent.household how =
      (match map_to w arr Ent.benunit Ent.person (some "mean") with
       | MapResult.ok a => map_to w a Ent.person Ent.household (some "sum")
       | r => r))
    ∧ (map_to w arr Ent.household Ent.benunit how =
      (match map_to w arr Ent.household Ent.person (some "mean") with
       | MapResult.ok a => map_to w a Ent.person Ent.benunit (some "sum")
       | r => r))
    ∧ (map_to w arr Ent.benunit Ent.person (some "mean") =
        MapResult.ok (project w.personBenunit
          (List.zipWith (fun a b => a / b) arr (nb_persons w.personBenunit w.nBenunit))))
    ∧ (map_to w arr Ent.person Ent.household (some "sum") =
        MapResult.ok (groupSum w.personHousehold w.nHousehold arr)) :=
  ⟨rfl, rfl, rfl, rfl⟩

/-- C8 (confirmed): with identical source and target entity, `map_to`
returns the array unchanged for every `how`, valid or not — the identity
branch neither validates nor applies `how`. -/
theorem map_to_identity (w : World) (arr : List ℚ) (e : Ent) (how : Option String) :
    map_to w arr e e how = MapResult.ok arr := by
  cases e <;> rfl

/-- C7 counterexample: two datasets whose failing inputs have DIFFERENT
variable names produce the IDENTICAL warning message — the batch warning
reports only the count (`skipped 1 variables:`) and does not list the
skipped keys. -/
theorem load_warning_counts_not_keys_cx :
    load_warning [⟨"alpha", "2020", false⟩] = load_warning [⟨"beta", "2020", false⟩]
    ∧ skipped_of [⟨"alpha", "2020", false⟩] ≠ skipped_of [⟨"beta", "2020", false⟩]
    ∧ load_warning [⟨"alpha", "2020", false⟩]
        = some "Incomplete initialisation: skipped 1 variables:" :=
  ⟨rfl, by decide, rfl⟩

/-- C7 (amended): input loading is non-fatal — every loadable (variable,
period) pair is set and the rest are skipped (the two sets partition the
supplied data) — and when anything was skipped exactly one batch warning
is emitted whose message depends only on the NUMBER of skipped entries,
not on which keys were skipped. -/
theorem load_dataset_nonfatal_count_warning (d d2 : List LoadEntry) :
    ((load_warning d = none) ↔ skipped_of d = [])
    ∧ ((skipped_of d).length = (skipped_of d2).length →
        load_warning d = load_warning d2)
    ∧ (inputs_set d).length + (skipped_of d).length = d.length := by
  refine ⟨?_, ?_, ?_⟩
  · by_cases hs : skipped_of d = [] <;> simp [load_warning, hs]
  · intro hlen
    by_cases hs : skipped_of d = []
    · have h2 : skipped_of d2 = [] := by
        rw [hs] at hlen
        exact List.length_eq_zero.mp hlen.symm
      simp [load_warning, hs, h2]
    · have h2 : skipped_of d2 ≠ [] := by
        intro hc
        rw [hc] at hlen
        exact hs (List.length_eq_zero.mp hlen)
      simp only [load_warning, List.isEmpty_iff]
      rw [if_neg hs, if_neg h2, hlen]
  · induction d with
    | nil => rfl
    | cons a tl ih =>
      by_cases hla : a.loadable <;>
        simp [inputs_set, skipped_of, List.filter_cons, hla] <;>
        simp [inputs_set, skipped_of] at ih <;>
        omega

/-- Witness for C7 (amended): equal skip counts give equal warnings. -/
theorem load_dataset_nonfatal_count_warning_witness :
    load_warning [⟨"gamma", "2019", false⟩, ⟨"x", "2019", true⟩]
      = load_warning [⟨"delta", "2021", false⟩] :=
  (load_dataset_nonfatal_count_warning
      [⟨"gamma", "2019", false⟩, ⟨"x", "2019", true⟩]
      [⟨"delta", "2021", false⟩]).2.1 (by decide)

/-- C3 (code bug): on a fresh `Microsimulation` (empty `bonus_sims` cache)
the same-entity branch of `deriv` never reaches the gradient computation:
building the perturbed sibling evaluates `self.mode`, an attribute
`__init__` never binds, so the call raises `AttributeError` instead of
returning the derivative (2.0 for the linear scenario `output = 2*wrt+10`,
`delta = 100`). -/
theorem deriv_same_entity_attribute_error :
    deriv_same_entity (fresh_microsim linear_base) "output" "wrt" 100 false
      = Except.error "AttributeError: Microsimulation object has no attribute mode"
    ∧ "mode" ∉ microsim_init_attrs
    ∧ "mode" ∉ microsim_init_kwargs :=
  ⟨rfl, by decide, by decide⟩

/-- Had the sibling been available in the cache with the intended perturbed
values (`wrt + 100` and `2*(wrt + 100) + 10`), the gradient would indeed be
2.0 for every unit: the claimed behaviour is the evident intent. -/
theorem deriv_gradient_would_be_two :
    deriv_same_entity
      ⟨microsim_init_attrs, [("wrt", 100, false, "same-entity")], linear_base,
        fun _ v => if v = "wrt" then [100, 150, 200]
          else if v = "output" then [210, 310, 410] else []⟩
      "output" "wrt" 100 false = Except.ok [2, 2, 2] := by
  have hmem : (("wrt", (100:ℚ), false, "same-entity") : DerivConfig)
      ∈ [(("wrt", (100:ℚ), false, "same-entity") : DerivConfig)] :=
    List.mem_singleton.mpr rfl
  simp only [deriv_same_entity, if_pos hmem, linear_base, String.reduceEq,
    reduceIte]
  norm_num

/-- C9 (confirmed): the leading literal `True` in the disjunction returned
by `would_claim_PC.formula` makes every output `true`, whatever the
reported Pension Credit amounts, the take-up rate, the random draws and
`claims_all_entitled_benefits` are. -/
theorem would_claim_PC_always_true (reported : List ℚ) (takeup : ℚ)
    (randoms : List ℚ) (claims_all : List Bool) :
    (would_claim_PC_formula reported takeup randoms claims_all).all
      (fun b => b) = true := by
  unfold would_claim_PC_formula
  exact zipWith_true_or_all claims_all _

/-- C10 (confirmed): in `bi_household_phaseout.formula` the reduction
factor is at most 1 for every person (the deduction is capped at
`household_bi`), and whenever a person's household has zero remaining
basic income the guarded division never fires and that person's result
is 0. -/
theorem bi_household_phaseout_safety (thH rH thI rI : ℚ) (personHH : List Nat)
    (incomes maxbis : List ℚ) :
    ((List.range personHH.length).all (fun p =>
        decide (percent_reduction_at thH rH thI rI personHH incomes maxbis p ≤ 1)))
      = true
    ∧ ∀ p : Nat,
        household_bi_at thI rI personHH incomes maxbis p = 0 →
        (bi_household_phaseout_formula thH rH thI rI personHH incomes maxbis).getD p 0
          = 0 := by
  constructor
  · simp only [List.all_eq_true, decide_eq_true_eq]
    intro p _
    exact percent_reduction_at_le_one thH rH thI rI personHH incomes maxbis p
  · intro p hz
    have hpr : percent_reduction_at thH rH thI rI personHH incomes maxbis p = 0 := by
      unfold percent_reduction_at
      rw [hz]
      norm_num
    by_cases hp : p < personHH.length
    · have hget : (bi_household_phaseout_formula thH rH thI rI personHH incomes maxbis).getD p 0
          = percent_reduction_at thH rH thI rI personHH incomes maxbis p
            * (remaining_bi thI rI incomes maxbis).getD p 0 := by
        unfold bi_household_phaseout_formula
        rw [List.getD_eq_getElem?_getD, List.getElem?_map, List.getElem?_range hp]
        rfl
      rw [hget, hpr, zero_mul]
    · have hlen : (bi_household_phaseout_formula thH rH thI rI personHH incomes maxbis).length
          = personHH.length := by
        unfold bi_household_phaseout_formula
        rw [List.length_map, List.length_range]
      rw [List.getD_eq_default]
      rw [hlen]
      omega

/-- Witness for C10 at a one-person household with everything zero. -/
theorem bi_household_phaseout_safety_witness :
    (bi_household_phaseout_formula 0 0 0 0 [0] [0] [0]).getD 0 0 = 0 :=
  (bi_household_phaseout_safety 0 0 0 0 [0] [0] [0]).2 0 (by
    norm_num [household_bi_at, hh_sum_at, remaining_bi, bi_individual_phaseout])
